import Mathlib

/-!
# redisEventLib: callback library and subscriber loop

A shallow embedding of `src/redis_pubsub.c` (the callback library) and of the
receive loop of `src/subscriber.c`.

Modelling conventions.

* The file-scope variables of `redis_pubsub.c` are the fields of `State`;
  every library function maps a `State` to a `Result` (return value, new
  state, and the list of externally visible actions it performed).
* Calls into hiredis, the C runtime and the Win32 API are taken to return to
  the caller.  Where the program branches on what they return, the value is an
  argument of the embedded function (`ConnectResult`, `Option redisReply`,
  the `thread` flag of `redis_subscribe`).
* A connection pointer is `null`, `live`, or `freed` (the pointer still holds
  the address of a context that was passed to `redisFree`).  The C test
  `if (p)` only distinguishes `null` from the other two.
* A critical section is `uninitialized`, `initialized` or `deleted`; every
  critical-section call is recorded with the status it found.
* `int` variables are `Int`; the one narrowing conversion of the program,
  `(int)subscribers`, is `int_of_longlong`.
* C strings are `String`; a `char *` that may be `NULL` is `Option String`.
  Dereferencing a `NULL` string makes the enclosing function return `none`.
-/

namespace RedisPubSub

/-! ## Data model -/

/-- Status of a `redisContext *` variable. -/
inductive Handle where
  | null
  | live
  | freed
  deriving DecidableEq, Repr

/-- Status of the `CRITICAL_SECTION g_lock`. -/
inductive LockState where
  | uninitialized
  | initialized
  | deleted
  deriving DecidableEq, Repr

/-- A `PubSubCallback` value that is not `NULL`, identified by its address. -/
abbrev PubSubCallback := Nat

/-- The `type` tag of a hiredis reply. -/
inductive ReplyType where
  | REDIS_REPLY_STRING
  | REDIS_REPLY_ARRAY
  | REDIS_REPLY_INTEGER
  | REDIS_REPLY_NIL
  | REDIS_REPLY_STATUS
  | REDIS_REPLY_ERROR
  deriving DecidableEq, Repr

/-- The fields of a hiredis `redisReply` that the program reads: `type`,
`integer`, `str` (possibly `NULL`) and the `element` array (`elements` is its
length). -/
inductive redisReply where
  | mk (type : ReplyType) (integer : Int) (str : Option String)
      (element : List redisReply)

namespace redisReply

def type : redisReply → ReplyType
  | mk t _ _ _ => t

def integer : redisReply → Int
  | mk _ n _ _ => n

def str : redisReply → Option String
  | mk _ _ s _ => s

def element : redisReply → List redisReply
  | mk _ _ _ es => es

def elements (r : redisReply) : Nat := r.element.length

end redisReply

/-- What `redisConnect` hands back: `NULL`, a context whose `err` is set, or
a usable context. -/
inductive ConnectResult where
  | null
  | err
  | ok
  deriving DecidableEq, Repr

/-- Externally visible actions of the library, in program order. -/
inductive Effect where
  | InitializeCriticalSection (found : LockState)
  | EnterCriticalSection (found : LockState)
  | LeaveCriticalSection (found : LockState)
  | DeleteCriticalSection (found : LockState)
  | redisConnect
  | redisFree (target : Handle)
  | redisCommand (target : Handle) (command : String)
  | beginthreadex (started : Bool)
  | callback (cb : PubSubCallback) (channel : String) (message : Option String)
  | stderr (text : String)
  deriving DecidableEq, Repr

/-- The file-scope variables of `redis_pubsub.c`. `g_thread` records whether
the handle is non-`NULL`. -/
structure State where
  g_context : Handle
  g_sub_context : Handle
  g_thread : Bool
  g_running : Bool
  g_callbacks : List (Option PubSubCallback)
  g_channels : List String
  g_callback_count : Int
  g_lock : LockState
  deriving DecidableEq, Repr

/-- Outcome of one library call. -/
structure Result where
  ret : Int
  state : State
  effects : List Effect
  deriving DecidableEq, Repr

/-- The state at program start: static storage is zero-initialised. -/
def initial : State where
  g_context := Handle.null
  g_sub_context := Handle.null
  g_thread := false
  g_running := false
  g_callbacks := List.replicate 100 none
  g_channels := List.replicate 100 ""
  g_callback_count := 0
  g_lock := LockState.uninitialized

/-! ## Primitive operations -/

/-- The conversion `(int)x` of a `long long`: the low 32 bits, read as a
two's-complement number. -/
def int_of_longlong (x : Int) : Int :=
  (x + 2 ^ 31) % 2 ^ 32 - 2 ^ 31

/-- The content of a destination buffer of `size` bytes after
`strcpy_s(dest, size, src)`: the source when it fits with its terminator,
otherwise the empty string (the runtime's invalid-parameter handler is taken
to return, as every external call is). -/
def strcpy_s (size : Nat) (src : String) : String :=
  if src.utf8ByteSize < size then src else ""

/-! ## `redis_init` and `redis_close` -/

/-- Embedding of `redis_init` (redis_pubsub.c, lines 24-51). `pub` and `sub`
are the results of the first and the second `redisConnect`. -/
def redis_init (s : State) (pub sub : ConnectResult) : Result :=
  let e0 := [Effect.InitializeCriticalSection s.g_lock, Effect.redisConnect]
  let s0 := { s with g_lock := LockState.initialized }
  match pub with
  | ConnectResult.null =>
    ⟨-1, { s0 with g_context := Handle.null },
      e0 ++ [Effect.stderr "[ERROR] Failed to connect to Redis (publish)"]⟩
  | ConnectResult.err =>
    ⟨-1, { s0 with g_context := Handle.freed },
      e0 ++ [Effect.stderr "[ERROR] Failed to connect to Redis (publish)",
             Effect.redisFree Handle.live]⟩
  | ConnectResult.ok =>
    let s1 := { s0 with g_context := Handle.live }
    let e1 := e0 ++ [Effect.redisConnect]
    match sub with
    | ConnectResult.null =>
      ⟨-1, { s1 with g_sub_context := Handle.null, g_context := Handle.freed },
        e1 ++ [Effect.stderr "[ERROR] Failed to connect to Redis (subscribe)",
               Effect.redisFree Handle.live]⟩
    | ConnectResult.err =>
      ⟨-1, { s1 with g_sub_context := Handle.freed, g_context := Handle.freed },
        e1 ++ [Effect.stderr "[ERROR] Failed to connect to Redis (subscribe)",
               Effect.redisFree Handle.live, Effect.redisFree Handle.live]⟩
    | ConnectResult.ok =>
      ⟨0, { s1 with g_sub_context := Handle.live, g_running := true,
                    g_callback_count := 0 }, e1⟩

/-- Embedding of `redis_close` (redis_pubsub.c, lines 53-75). The three
critical-section calls are unconditional and are recorded with the status of
`g_lock` they find; `redisFree` is recorded with the status of the pointer it
is given. Calls that find a deleted or never initialised section, or a freed
context, are outside what their API defines; the embedding lets them return
and shows them in the action list. -/
def redis_close (s : State) : Result :=
  let e0 := [Effect.EnterCriticalSection s.g_lock]
  let s0 := { s with g_running := false }
  let e1 := if s0.g_sub_context ≠ Handle.null
    then e0 ++ [Effect.redisFree s0.g_sub_context] else e0
  let s1 := if s0.g_sub_context ≠ Handle.null
    then { s0 with g_sub_context := Handle.null } else s0
  let e2 := if s1.g_context ≠ Handle.null
    then e1 ++ [Effect.redisFree s1.g_context] else e1
  let s2 := if s1.g_context ≠ Handle.null
    then { s1 with g_context := Handle.null } else s1
  let s3 := { s2 with g_callback_count := 0 }
  ⟨0, { s3 with g_lock := LockState.deleted },
    e2 ++ [Effect.LeaveCriticalSection s.g_lock,
           Effect.DeleteCriticalSection s.g_lock]⟩

/-! ## `redis_publish` -/

/-- Embedding of `redis_publish` (redis_pubsub.c, lines 79-108). `reply` is
what `redisCommand` returns (`none` for `NULL`). -/
def redis_publish (s : State) (channel message : Option String)
    (reply : Option redisReply) : Result :=
  if s.g_context = Handle.null then
    ⟨-1, s, [Effect.stderr "[ERROR] Redis not initialized"]⟩
  else
    match channel, message with
    | some ch, some msg =>
      let e0 := [Effect.EnterCriticalSection s.g_lock,
                 Effect.redisCommand s.g_context ("PUBLISH " ++ ch ++ " " ++ msg)]
      match reply with
      | none =>
        ⟨-1, s, e0 ++ [Effect.stderr "[ERROR] Failed to publish",
                       Effect.LeaveCriticalSection s.g_lock]⟩
      | some r =>
        ⟨int_of_longlong r.integer, s,
          e0 ++ [Effect.LeaveCriticalSection s.g_lock]⟩
    | _, _ => ⟨-1, s, [Effect.stderr "[ERROR] Invalid channel or message"]⟩

/-! ## `redis_subscribe` -/

/-- Embedding of `redis_subscribe` (redis_pubsub.c, lines 112-159). `reply`
is what `redisCommand` returns; `thread` tells whether `_beginthreadex`
returns a non-zero handle (it is consulted only when the call is made).
The slot written is `g_callback_count`, a valid index whenever
`0 <= g_callback_count`; `tableInv` below records that bound. -/
def redis_subscribe (s : State) (channel : Option String)
    (callback : Option PubSubCallback) (reply : Option redisReply)
    (thread : Bool) : Result :=
  if s.g_context = Handle.null ∨ s.g_sub_context = Handle.null then
    ⟨-1, s, [Effect.stderr "[ERROR] Redis not initialized"]⟩
  else
    match channel, callback with
    | some ch, some cb =>
      if s.g_callback_count ≥ 100 then
        ⟨-1, s, [Effect.EnterCriticalSection s.g_lock,
                 Effect.stderr "[ERROR] Max channels (100) exceeded",
                 Effect.LeaveCriticalSection s.g_lock]⟩
      else
        let s1 := { s with
          g_channels := s.g_channels.set s.g_callback_count.toNat (strcpy_s 256 ch),
          g_callbacks := s.g_callbacks.set s.g_callback_count.toNat (some cb),
          g_callback_count := s.g_callback_count + 1 }
        let e1 := [Effect.EnterCriticalSection s.g_lock,
                   Effect.redisCommand s.g_sub_context ("SUBSCRIBE " ++ ch)]
        match reply with
        | none =>
          ⟨-1, { s1 with g_callback_count := s1.g_callback_count - 1 },
            e1 ++ [Effect.stderr "[ERROR] Failed to subscribe",
                   Effect.LeaveCriticalSection s.g_lock]⟩
        | some _ =>
          if s1.g_callback_count = 1 then
            if thread then
              ⟨0, { s1 with g_thread := true },
                e1 ++ [Effect.beginthreadex true,
                       Effect.LeaveCriticalSection s.g_lock]⟩
            else
              ⟨-1, { s1 with g_thread := false,
                             g_callback_count := s1.g_callback_count - 1 },
                e1 ++ [Effect.beginthreadex false,
                       Effect.stderr "[ERROR] Failed to create subscription thread",
                       Effect.LeaveCriticalSection s.g_lock]⟩
          else
            ⟨0, s1, e1 ++ [Effect.LeaveCriticalSection s.g_lock]⟩
    | _, _ => ⟨-1, s, [Effect.stderr "[ERROR] Invalid channel or callback"]⟩

/-! ## The background reader, `subscription_thread` -/

/-- The `for` loop of lines 190-195, entered at index `i` with `fuel`
iterations left; it stops at the first index whose channel equals `channel`
and whose callback is not `NULL`. -/
def dispatch_loop (s : State) (channel : String) (message : Option String) :
    Nat → Nat → List Effect
  | 0, _ => []
  | fuel + 1, i =>
    if (i : Int) < s.g_callback_count then
      if s.g_channels.getD i "" = channel then
        match s.g_callbacks.getD i none with
        | some cb => [Effect.callback cb channel message]
        | none => dispatch_loop s channel message fuel (i + 1)
      else dispatch_loop s channel message fuel (i + 1)
    else []

/-- Lines 181-198 of `subscription_thread`: what the reader does with one
reply. `none` stands for a `strcmp` on a `NULL` string. -/
def process_reply (s : State) (reply : redisReply) : Option (List Effect) :=
  if reply.type = ReplyType.REDIS_REPLY_ARRAY ∧ reply.elements = 3 then
    match reply.element with
    | [e0, e1, e2] =>
      match e0.str with
      | none => none
      | some tag =>
        if tag = "message" then
          match e1.str with
          | some channel =>
            some ([Effect.EnterCriticalSection s.g_lock]
              ++ dispatch_loop s channel e2.str s.g_callback_count.toNat 0
              ++ [Effect.LeaveCriticalSection s.g_lock])
          | none =>
            if 0 < s.g_callback_count then none
            else some [Effect.EnterCriticalSection s.g_lock,
                       Effect.LeaveCriticalSection s.g_lock]
        else some []
    | _ => some []
  else some []

/-- What `redisGetReply` yields: a status other than `REDIS_OK`, or
`REDIS_OK` together with the reply pointer (`none` for `NULL`). -/
inductive ReadResult where
  | failed
  | ok (reply : Option redisReply)

/-- The loop test of `subscription_thread` (line 166). -/
def subscription_thread_continues (s : State) : Bool :=
  s.g_running && decide (s.g_sub_context ≠ Handle.null)

/-- The loop body of `subscription_thread` (lines 167-200), run in the state
`s` found when `redisGetReply` returns. The flag tells whether the loop goes
back to its test (`true`) or is left by `break` (`false`). -/
def subscription_thread_body (s : State) (r : ReadResult) :
    Option (List Effect × Bool) :=
  match r with
  | ReadResult.failed =>
    some (if s.g_running
      then [Effect.stderr "[ERROR] Connection lost in subscription thread"]
      else [], false)
  | ReadResult.ok none => some ([], true)
  | ReadResult.ok (some reply) =>
    match process_reply s reply with
    | some es => some (es, true)
    | none => none

/-! ## Call sequences -/

/-- One event of a run of the library: a call of an exported function with
the answers of its environment, or one pass of the reader thread. -/
inductive Call where
  | init (pub sub : ConnectResult)
  | close
  | publish (channel message : Option String) (reply : Option redisReply)
  | subscribe (channel : Option String) (callback : Option PubSubCallback)
      (reply : Option redisReply) (thread : Bool)
  | reader (r : ReadResult)

/-- The effect of one event on the library. A reader pass never writes a
file-scope variable; a pass that dereferences `NULL` contributes no action. -/
def step (s : State) : Call → Result
  | Call.init pub sub => redis_init s pub sub
  | Call.close => redis_close s
  | Call.publish channel message reply => redis_publish s channel message reply
  | Call.subscribe channel callback reply thread =>
    redis_subscribe s channel callback reply thread
  | Call.reader r =>
    match subscription_thread_body s r with
    | some (es, _) => ⟨0, s, es⟩
    | none => ⟨0, s, []⟩

/-- The state after a sequence of events. -/
def execute (s : State) : List Call → State
  | [] => s
  | c :: cs => execute (step s c).state cs

/-- The callback invocations among a list of actions, in order. -/
def invocations : List Effect → List (PubSubCallback × String × Option String)
  | [] => []
  | Effect.callback cb c m :: es => (cb, c, m) :: invocations es
  | _ :: es => invocations es

/-- The commands sent on a connection among a list of actions. -/
def commands : List Effect → List (Handle × String)
  | [] => []
  | Effect.redisCommand h c :: es => (h, c) :: commands es
  | _ :: es => commands es

/-- An integer reply. -/
def integerReply (n : Int) : redisReply :=
  redisReply.mk ReplyType.REDIS_REPLY_INTEGER n none []

/-- A bulk-string reply. -/
def stringReply (text : String) : redisReply :=
  redisReply.mk ReplyType.REDIS_REPLY_STRING 0 (some text) []

/-- An array reply. -/
def arrayReply (es : List redisReply) : redisReply :=
  redisReply.mk ReplyType.REDIS_REPLY_ARRAY 0 none es

/-- The state after a successful `redis_init` at program start. -/
def sessionState : State := (redis_init initial ConnectResult.ok ConnectResult.ok).state

/-- A state with both connections open and a full table. -/
def fullState : State :=
  { sessionState with
    g_thread := true
    g_callbacks := List.replicate 100 (some 7)
    g_channels := List.replicate 100 "news"
    g_callback_count := 100 }

/-- A state with two registrations on the channel "news" and one on "sport". -/
def duplicateState : State :=
  { sessionState with
    g_thread := true
    g_callbacks := [some 11, some 12, some 13] ++ List.replicate 97 none
    g_channels := ["news", "sport", "news"] ++ List.replicate 97 ""
    g_callback_count := 3 }

/-- The shape of the registration table that the library maintains: the
count lies between 0 and 100, both arrays have 100 slots, and every entry
below the count carries a callback. -/
def tableInv (s : State) : Prop :=
  0 ≤ s.g_callback_count ∧ s.g_callback_count ≤ 100 ∧
  s.g_channels.length = 100 ∧ s.g_callbacks.length = 100 ∧
  ∀ i : Nat, (i : Int) < s.g_callback_count → (s.g_callbacks.getD i none).isSome

end RedisPubSub

/-! ## The receive loop of `subscriber.c` -/

namespace Subscriber

open RedisPubSub

/-- Lines 49-65 of `main` in subscriber.c: the handling of one non-`NULL`
reply, given the running message counter. The result is the new counter and
the text written to standard output, one entry per `printf`; `none` stands
for the use of a `NULL` string. The counter is not wrapped: it stays below
2^31 for any run of fewer than 2^31 messages. -/
def main_handle_reply (msg_count : Int) (reply : redisReply) :
    Option (Int × List String) :=
  if reply.type = ReplyType.REDIS_REPLY_ARRAY ∧ reply.elements = 3 then
    match reply.element with
    | [e0, e1, e2] =>
      match e0.str with
      | none => none
      | some tag =>
        if tag = "message" then
          match e1.str, e2.str with
          | some channel, some payload =>
            some (msg_count + 1,
              ["[Message #" ++ toString (msg_count + 1) ++ "] From channel '"
                 ++ channel ++ "':\n",
               "             " ++ payload ++ "\n\n"])
          | _, _ => none
        else some (msg_count, [])
    | _ => some (msg_count, [])
  else if reply.type = ReplyType.REDIS_REPLY_ARRAY ∧ reply.elements = 3 then
    match reply.element with
    | [e0, e1, e2] =>
      match e0.str with
      | none => none
      | some tag =>
        if tag = "subscribe" then
          match e1.str with
          | some channel =>
            some (msg_count,
              ["[Info] Subscribed to '" ++ channel ++ "' (total subscriptions: "
                 ++ toString e2.integer ++ ")\n\n"])
          | none => none
        else some (msg_count, [])
    | _ => some (msg_count, [])
  else some (msg_count, [])

/-- The `while` loop of `main` (lines 42-68) over the successive results of
`redisGetReply`; it ends at the first failed read, at a `NULL` reply, or when
the list is exhausted. -/
def main_loop (msg_count : Int) : List ReadResult → Option (Int × List String)
  | [] => some (msg_count, [])
  | ReadResult.failed :: _ => some (msg_count, [])
  | ReadResult.ok none :: _ => some (msg_count, ["ERROR: Connection lost\n"])
  | ReadResult.ok (some reply) :: rs =>
    match main_handle_reply msg_count reply with
    | none => none
    | some (n, out) =>
      match main_loop n rs with
      | none => none
      | some (n2, out2) => some (n2, out ++ out2)

end Subscriber

/-! ## Properties of the callback library -/

namespace RedisPubSub

/-- After `redis_close` both connection variables are `NULL`. -/
theorem redis_close_handles (s : State) :
    (redis_close s).state.g_context = Handle.null ∧
    (redis_close s).state.g_sub_context = Handle.null := by
  unfold redis_close
  by_cases h1 : s.g_sub_context = Handle.null <;>
    by_cases h2 : s.g_context = Handle.null <;> simp [h1, h2]

/-- C1: in a state where both connections are set and the table holds 100
entries, `redis_subscribe` with a non-null channel and callback returns -1
and changes nothing: the count is still 100 and the channel and callback
arrays are the ones from before the call. -/
theorem redis_subscribe_full_table (s : State) (ch : String)
    (cb : PubSubCallback) (reply : Option redisReply) (thread : Bool)
    (hp : s.g_context ≠ Handle.null) (hs : s.g_sub_context ≠ Handle.null)
    (hc : s.g_callback_count = 100) :
    (redis_subscribe s (some ch) (some cb) reply thread).ret = -1 ∧
    (redis_subscribe s (some ch) (some cb) reply thread).state = s ∧
    (redis_subscribe s (some ch) (some cb) reply thread).state.g_callback_count = 100 ∧
    (redis_subscribe s (some ch) (some cb) reply thread).state.g_channels = s.g_channels ∧
    (redis_subscribe s (some ch) (some cb) reply thread).state.g_callbacks = s.g_callbacks ∧
    commands (redis_subscribe s (some ch) (some cb) reply thread).effects = [] := by
  simp [redis_subscribe, hp, hs, hc, commands]

/-- C3: in the state left by `redis_close`, `redis_publish` and
`redis_subscribe` return -1 for all arguments and all answers of the
environment, on the "not initialized" branch: no command is sent and the
state, registration table included, is unchanged. -/
theorem calls_after_close_fail (s : State) (channel message : Option String)
    (callback : Option PubSubCallback) (reply : Option redisReply)
    (thread : Bool) :
    redis_publish (redis_close s).state channel message reply
      = ⟨-1, (redis_close s).state, [Effect.stderr "[ERROR] Redis not initialized"]⟩ ∧
    redis_subscribe (redis_close s).state channel callback reply thread
      = ⟨-1, (redis_close s).state, [Effect.stderr "[ERROR] Redis not initialized"]⟩ ∧
    commands (redis_publish (redis_close s).state channel message reply).effects = [] ∧
    commands (redis_subscribe (redis_close s).state channel callback reply thread).effects
      = [] := by
  have h := redis_close_handles s
  simp [redis_publish, redis_subscribe, h.1, h.2, commands]

/-- What one `redis_close` does, from every state: it returns 0, clears the
running flag, both connection variables and the count, marks the critical
section deleted, and performs exactly these actions: enter the section, free
the subscribe connection if set, free the publish connection if set, leave
and delete the section. -/
theorem redis_close_result (s : State) :
    (redis_close s).ret = 0 ∧
    (redis_close s).state.g_running = false ∧
    (redis_close s).state.g_context = Handle.null ∧
    (redis_close s).state.g_sub_context = Handle.null ∧
    (redis_close s).state.g_callback_count = 0 ∧
    (redis_close s).state.g_lock = LockState.deleted ∧
    (redis_close s).effects
      = [Effect.EnterCriticalSection s.g_lock]
        ++ (if s.g_sub_context ≠ Handle.null
              then [Effect.redisFree s.g_sub_context] else [])
        ++ (if s.g_context ≠ Handle.null
              then [Effect.redisFree s.g_context] else [])
        ++ [Effect.LeaveCriticalSection s.g_lock,
            Effect.DeleteCriticalSection s.g_lock] := by
  unfold redis_close
  by_cases h1 : s.g_sub_context = Handle.null <;>
    by_cases h2 : s.g_context = Handle.null <;> simp [h1, h2]

/-- The scan makes no invocation or exactly one. -/
theorem dispatch_loop_cases (s : State) (c : String) (m : Option String) :
    ∀ fuel i, dispatch_loop s c m fuel i = [] ∨
      ∃ cb, dispatch_loop s c m fuel i = [Effect.callback cb c m] := by
  intro fuel
  induction fuel with
  | zero => intro i; simp [dispatch_loop]
  | succ n ih =>
    intro i
    unfold dispatch_loop
    split_ifs with h1 h2
    · cases hcb : s.g_callbacks.getD i none with
      | none => simpa using ih (i + 1)
      | some cb => exact Or.inr ⟨cb, by simp⟩
    · exact ih (i + 1)
    · exact Or.inl rfl

/-- With enough fuel the scan entered at `i` stops at the earliest entry at
or after `i` whose channel matches and whose callback is set. -/
theorem dispatch_loop_first (s : State) (c : String) (m : Option String)
    (k : Nat) (cb : PubSubCallback) (hk : (k : Int) < s.g_callback_count)
    (hc : s.g_channels.getD k "" = c) (hcb : s.g_callbacks.getD k none = some cb) :
    ∀ (fuel i : Nat), i ≤ k → k < i + fuel →
      (∀ j : Nat, i ≤ j → j < k →
        ¬ (s.g_channels.getD j "" = c ∧ (s.g_callbacks.getD j none).isSome)) →
      dispatch_loop s c m fuel i = [Effect.callback cb c m] := by
  intro fuel
  induction fuel with
  | zero => intro i h1 h2; omega
  | succ n ih =>
    intro i hik hfuel hmin
    have hi : (i : Int) < s.g_callback_count := by omega
    rcases Nat.eq_or_lt_of_le hik with heq | hlt
    · subst heq
      rw [dispatch_loop, if_pos hi, if_pos hc, hcb]
    · have hrec : dispatch_loop s c m n (i + 1) = [Effect.callback cb c m] :=
        ih (i + 1) (by omega) (by omega) (fun j hj1 hj2 => hmin j (by omega) hj2)
      have hno := hmin i (Nat.le_refl i) hlt
      by_cases hch : s.g_channels.getD i "" = c
      · have hnone : s.g_callbacks.getD i none = none := by
          cases hx : s.g_callbacks.getD i none with
          | none => rfl
          | some x => exact absurd ⟨hch, by rw [hx]; rfl⟩ hno
        rw [dispatch_loop, if_pos hi, if_pos hch, hnone]
        exact hrec
      · rw [dispatch_loop, if_pos hi, if_neg hch]
        exact hrec

/-- When no entry at or after `i` matches, the scan invokes nothing. -/
theorem dispatch_loop_none (s : State) (c : String) (m : Option String) :
    ∀ (fuel i : Nat),
      (∀ j : Nat, i ≤ j → (j : Int) < s.g_callback_count →
        ¬ (s.g_channels.getD j "" = c ∧ (s.g_callbacks.getD j none).isSome)) →
      dispatch_loop s c m fuel i = [] := by
  intro fuel
  induction fuel with
  | zero => intro i _; simp [dispatch_loop]
  | succ n ih =>
    intro i hno
    have hrec : dispatch_loop s c m n (i + 1) = [] :=
      ih (i + 1) (fun j hj1 hj2 => hno j (by omega) hj2)
    by_cases hi : (i : Int) < s.g_callback_count
    · have hnoi := hno i (Nat.le_refl i) hi
      by_cases hch : s.g_channels.getD i "" = c
      · have hnone : s.g_callbacks.getD i none = none := by
          cases hx : s.g_callbacks.getD i none with
          | none => rfl
          | some x => exact absurd ⟨hch, by rw [hx]; rfl⟩ hnoi
        rw [dispatch_loop, if_pos hi, if_pos hch, hnone]
        exact hrec
      · rw [dispatch_loop, if_pos hi, if_neg hch]
        exact hrec
    · rw [dispatch_loop, if_neg hi]

/-- Lock calls around the scan are not invocations. -/
theorem invocations_locked (a b : LockState) (es : List Effect)
    (h : es = [] ∨ ∃ cb c m, es = [Effect.callback cb c m]) :
    invocations ([Effect.EnterCriticalSection a] ++ es ++ [Effect.LeaveCriticalSection b])
      = invocations es := by
  rcases h with h | ⟨cb, c, m, h⟩ <;> subst h <;> simp [invocations]

/-- C2: for every table and every three-element array reply whose first
element is "message", carrying channel `c` and payload `m`, the reader's
dispatch returns and invokes at most one callback. If a registration below
`g_callback_count` (an entry whose callback is set) has channel `c`, the
earliest such entry, and no other, is invoked once with exactly `(c, m)`;
if there is none, nothing is invoked. -/
theorem dispatch_first_match_wins (s : State) (n : Int) (st : Option String)
    (e0 e1 e2 : redisReply) (c m : String)
    (h0 : e0.str = some "message") (h1 : e1.str = some c) (h2 : e2.str = some m) :
    ∃ es, process_reply s
        (redisReply.mk ReplyType.REDIS_REPLY_ARRAY n st [e0, e1, e2]) = some es ∧
      (invocations es).length ≤ 1 ∧
      (∀ (k : Nat) (cb : PubSubCallback), (k : Int) < s.g_callback_count →
        s.g_channels.getD k "" = c → s.g_callbacks.getD k none = some cb →
        (∀ j : Nat, j < k →
          ¬ (s.g_channels.getD j "" = c ∧ (s.g_callbacks.getD j none).isSome)) →
        invocations es = [(cb, c, some m)]) ∧
      ((∀ j : Nat, (j : Int) < s.g_callback_count →
          ¬ (s.g_channels.getD j "" = c ∧ (s.g_callbacks.getD j none).isSome)) →
        invocations es = []) := by
  refine ⟨[Effect.EnterCriticalSection s.g_lock]
      ++ dispatch_loop s c (some m) s.g_callback_count.toNat 0
      ++ [Effect.LeaveCriticalSection s.g_lock], ?_, ?_, ?_, ?_⟩
  · simp [process_reply, redisReply.type, redisReply.elements, redisReply.element, h0, h1, h2]
  · have hcases := dispatch_loop_cases s c (some m) s.g_callback_count.toNat 0
    rw [invocations_locked _ _ _ (by
      rcases hcases with h | ⟨cb, h⟩
      · exact Or.inl h
      · exact Or.inr ⟨cb, c, some m, h⟩)]
    rcases hcases with h | ⟨cb, h⟩ <;> rw [h] <;> simp [invocations]
  · intro k cb hk hc hcb hmin
    have hloop := dispatch_loop_first s c (some m) k cb hk hc hcb
      s.g_callback_count.toNat 0 (Nat.zero_le k) (by omega)
      (fun j _ hj => hmin j hj)
    rw [hloop]
    simp [invocations]
  · intro hno
    have hloop := dispatch_loop_none s c (some m) s.g_callback_count.toNat 0
      (fun j _ hj => hno j hj)
    rw [hloop]
    simp [invocations]


theorem getD_set_ne {α : Type} (l : List α) (i j : Nat) (v d : α) (h : i ≠ j) :
    (l.set i v).getD j d = l.getD j d := by
  simp [List.getD_eq_getElem?_getD, List.getElem?_set, h]

theorem getD_set_eq {α : Type} (l : List α) (i : Nat) (v d : α) (h : i < l.length) :
    (l.set i v).getD i d = v := by
  simp [List.getD_eq_getElem?_getD, List.getElem?_set, h]

/-- A reader pass leaves the file-scope variables alone. -/
theorem step_reader_state (s : State) (r : ReadResult) :
    (step s (Call.reader r)).state = s := by
  simp only [step]
  split <;> rfl

/-- `redis_publish` leaves the file-scope variables alone. -/
theorem redis_publish_state (s : State) (channel message : Option String)
    (reply : Option redisReply) :
    (redis_publish s channel message reply).state = s := by
  by_cases h : s.g_context = Handle.null
  · simp [redis_publish, h]
  · cases channel <;> cases message <;> cases reply <;> simp [redis_publish, h]

/-- `redis_init` either resets the count or leaves it, and never touches the
two arrays. -/
theorem redis_init_table (s : State) (pub sub : ConnectResult) :
    ((redis_init s pub sub).state.g_callback_count = 0 ∨
      (redis_init s pub sub).state.g_callback_count = s.g_callback_count) ∧
    (redis_init s pub sub).state.g_channels = s.g_channels ∧
    (redis_init s pub sub).state.g_callbacks = s.g_callbacks := by
  cases pub <;> cases sub <;> simp [redis_init]

/-- `redis_close` resets the count and never touches the two arrays. -/
theorem redis_close_table (s : State) :
    (redis_close s).state.g_callback_count = 0 ∧
    (redis_close s).state.g_channels = s.g_channels ∧
    (redis_close s).state.g_callbacks = s.g_callbacks := by
  unfold redis_close
  by_cases h1 : s.g_sub_context = Handle.null <;>
    by_cases h2 : s.g_context = Handle.null <;> simp [h1, h2]

/-- The ways `redis_subscribe` can change the table: not at all, or by one
write at index `g_callback_count` (made only when that count is below 100),
after which the count is kept (roll-back) or incremented. -/
theorem redis_subscribe_table (s : State) (channel : Option String)
    (callback : Option PubSubCallback) (reply : Option redisReply) (thread : Bool) :
    (redis_subscribe s channel callback reply thread).state = s ∨
    ∃ ch cb, channel = some ch ∧ callback = some cb ∧ s.g_callback_count < 100 ∧
      (redis_subscribe s channel callback reply thread).state.g_channels
        = s.g_channels.set s.g_callback_count.toNat (strcpy_s 256 ch) ∧
      (redis_subscribe s channel callback reply thread).state.g_callbacks
        = s.g_callbacks.set s.g_callback_count.toNat (some cb) ∧
      ((redis_subscribe s channel callback reply thread).state.g_callback_count
          = s.g_callback_count ∨
        (redis_subscribe s channel callback reply thread).state.g_callback_count
          = s.g_callback_count + 1) := by
  by_cases h1 : s.g_context = Handle.null ∨ s.g_sub_context = Handle.null
  · exact Or.inl (by simp [redis_subscribe, h1])
  · cases channel with
    | none => exact Or.inl (by simp [redis_subscribe, h1])
    | some ch =>
      cases callback with
      | none => exact Or.inl (by simp [redis_subscribe, h1])
      | some cb =>
        by_cases h2 : s.g_callback_count ≥ 100
        · exact Or.inl (by simp [redis_subscribe, h1, h2])
        · refine Or.inr ⟨ch, cb, rfl, rfl, by omega, ?_⟩
          cases reply with
          | none => simp [redis_subscribe, h1, h2]
          | some r =>
            by_cases h3 : s.g_callback_count + 1 = 1 <;> cases thread <;>
              first | (simp [redis_subscribe, h1, h2, h3]; done) | (simp [redis_subscribe, h1, h2, h3]; omega)

/-- Every event keeps the table invariant. -/
theorem step_tableInv (s : State) (c : Call) (h : tableInv s) :
    tableInv (step s c).state := by
  obtain ⟨h0, h100, hlc, hlb, hset⟩ := h
  cases c with
  | init pub sub =>
    obtain ⟨hc, hch, hcb⟩ := redis_init_table s pub sub
    refine ⟨?_, ?_, ?_, ?_, ?_⟩
    · show 0 ≤ (redis_init s pub sub).state.g_callback_count
      rcases hc with hc | hc <;> omega
    · show (redis_init s pub sub).state.g_callback_count ≤ 100
      rcases hc with hc | hc <;> omega
    · show (redis_init s pub sub).state.g_channels.length = 100
      rw [hch]; exact hlc
    · show (redis_init s pub sub).state.g_callbacks.length = 100
      rw [hcb]; exact hlb
    · intro i hi
      change (i : Int) < (redis_init s pub sub).state.g_callback_count at hi
      show ((redis_init s pub sub).state.g_callbacks.getD i none).isSome = true
      rw [hcb]
      exact hset i (by rcases hc with hc | hc <;> omega)
  | close =>
    obtain ⟨hc, hch, hcb⟩ := redis_close_table s
    refine ⟨?_, ?_, ?_, ?_, ?_⟩
    · show 0 ≤ (redis_close s).state.g_callback_count
      omega
    · show (redis_close s).state.g_callback_count ≤ 100
      omega
    · show (redis_close s).state.g_channels.length = 100
      rw [hch]; exact hlc
    · show (redis_close s).state.g_callbacks.length = 100
      rw [hcb]; exact hlb
    · intro i hi
      change (i : Int) < (redis_close s).state.g_callback_count at hi
      omega
  | publish channel message reply =>
    show tableInv (redis_publish s channel message reply).state
    rw [redis_publish_state]
    exact ⟨h0, h100, hlc, hlb, hset⟩
  | subscribe channel callback reply thread =>
    show tableInv (redis_subscribe s channel callback reply thread).state
    rcases redis_subscribe_table s channel callback reply thread with
      heq | ⟨ch, cb, _, _, hlt, hch, hcb, hc⟩
    · rw [heq]
      exact ⟨h0, h100, hlc, hlb, hset⟩
    · refine ⟨by rcases hc with hc | hc <;> omega, by rcases hc with hc | hc <;> omega,
        by rw [hch, List.length_set]; exact hlc,
        by rw [hcb, List.length_set]; exact hlb, ?_⟩
      intro i hi
      rw [hcb]
      by_cases hidx : s.g_callback_count.toNat = i
      · rw [← hidx, getD_set_eq _ _ _ _ (by omega)]
        rfl
      · rw [getD_set_ne _ _ _ _ _ hidx]
        exact hset i (by rcases hc with hc | hc <;> omega)
  | reader r =>
    rw [step_reader_state]
    exact ⟨h0, h100, hlc, hlb, hset⟩

theorem initial_tableInv : tableInv initial := by
  refine ⟨by decide, by decide, by simp [initial], by simp [initial], ?_⟩
  intro i hi
  have : (i : Int) < 0 := hi
  omega

/-- The table invariant holds after any sequence of events. -/
theorem execute_tableInv (cs : List Call) :
    ∀ s, tableInv s → tableInv (execute s cs) := by
  induction cs with
  | nil => intro s h; exact h
  | cons c cs ih => intro s h; exact ih _ (step_tableInv s c h)

/-- C10: in every state reached from the initial state by any sequence of
`redis_init`, `redis_subscribe`, `redis_publish`, `redis_close` and reader
passes, whatever the connect, command and thread-spawn outcomes,
`0 <= g_callback_count <= 100` and both arrays have their 100 slots; hence
the slot `redis_subscribe` writes (index `g_callback_count`, written only
when it is below 100) and every slot the dispatch scan reads (indices below
`g_callback_count`) lie inside the arrays. -/
theorem callback_count_in_bounds (cs : List Call) :
    0 ≤ (execute initial cs).g_callback_count ∧
    (execute initial cs).g_callback_count ≤ 100 ∧
    (execute initial cs).g_channels.length = 100 ∧
    (execute initial cs).g_callbacks.length = 100 ∧
    (¬ (execute initial cs).g_callback_count ≥ 100 →
      ((execute initial cs).g_callback_count.toNat : Int)
          = (execute initial cs).g_callback_count ∧
        (execute initial cs).g_callback_count.toNat
          < (execute initial cs).g_channels.length ∧
        (execute initial cs).g_callback_count.toNat
          < (execute initial cs).g_callbacks.length) ∧
    (∀ i : Nat, (i : Int) < (execute initial cs).g_callback_count →
      i < (execute initial cs).g_channels.length ∧
      i < (execute initial cs).g_callbacks.length) := by
  obtain ⟨h0, h100, hlc, hlb, _⟩ := execute_tableInv cs initial initial_tableInv
  refine ⟨h0, h100, hlc, hlb, ?_, ?_⟩
  · intro h
    omega
  · intro i hi
    omega


/-- C5: from an initialised state with fewer than 100 registrations and with
a non-null channel and callback, when the SUBSCRIBE command gets no reply, or
gets one but the thread spawn that follows fails, `redis_subscribe` returns -1
and the table is rolled back: the count and every entry below it are as they
were before the call. -/
theorem redis_subscribe_rolls_back (s : State) (ch : String) (cb : PubSubCallback)
    (reply : Option redisReply) (thread : Bool)
    (hp : s.g_context ≠ Handle.null) (hs : s.g_sub_context ≠ Handle.null)
    (h0 : 0 ≤ s.g_callback_count) (h100 : s.g_callback_count < 100)
    (hfail : reply = none ∨ (reply ≠ none ∧
      Effect.beginthreadex false ∈
        (redis_subscribe s (some ch) (some cb) reply thread).effects)) :
    (redis_subscribe s (some ch) (some cb) reply thread).ret = -1 ∧
    (redis_subscribe s (some ch) (some cb) reply thread).state.g_callback_count
      = s.g_callback_count ∧
    ∀ i : Nat, (i : Int) < s.g_callback_count →
      (redis_subscribe s (some ch) (some cb) reply thread).state.g_channels.getD i ""
        = s.g_channels.getD i "" ∧
      (redis_subscribe s (some ch) (some cb) reply thread).state.g_callbacks.getD i none
        = s.g_callbacks.getD i none := by
  have h2 : ¬ s.g_callback_count ≥ 100 := by omega
  cases reply with
  | none =>
    refine ⟨by simp [redis_subscribe, hp, hs, h2], by simp [redis_subscribe, hp, hs, h2], ?_⟩
    intro i hi
    have hne : s.g_callback_count.toNat ≠ i := by omega
    simp only [redis_subscribe, hp, hs, h2, or_self, if_false]
    exact ⟨getD_set_ne _ _ _ _ _ hne, getD_set_ne _ _ _ _ _ hne⟩
  | some r =>
    rcases hfail with hnone | ⟨_, hmem⟩
    · exact absurd hnone (by simp)
    · by_cases h3 : s.g_callback_count + 1 = 1
      · cases thread with
        | true => simp [redis_subscribe, hp, hs, h2, h3] at hmem
        | false =>
          have hz : s.g_callback_count = 0 := by omega
          refine ⟨by simp [redis_subscribe, hp, hs, hz],
            by simp [redis_subscribe, hp, hs, hz], ?_⟩
          intro i hi
          omega
      · simp [redis_subscribe, hp, hs, h2, h3] at hmem

/-- C8 (as amended): from an initialised state and with a non-null channel
and message, `redis_publish` returns -1 when the command yields no reply and
otherwise the reply's `integer` field converted to `int`, which is the field
itself whenever it lies in the `int` range; the state, and with it the
registration table and the running flag, is unchanged. -/
theorem redis_publish_result (s : State) (ch msg : String)
    (reply : Option redisReply) (hp : s.g_context ≠ Handle.null) :
    (reply = none → (redis_publish s (some ch) (some msg) reply).ret = -1) ∧
    (∀ r, reply = some r →
      (redis_publish s (some ch) (some msg) reply).ret = int_of_longlong r.integer ∧
      (-2 ^ 31 ≤ r.integer → r.integer < 2 ^ 31 →
        (redis_publish s (some ch) (some msg) reply).ret = r.integer)) ∧
    (redis_publish s (some ch) (some msg) reply).state = s ∧
    (redis_publish s (some ch) (some msg) reply).state.g_callback_count
      = s.g_callback_count ∧
    (redis_publish s (some ch) (some msg) reply).state.g_channels = s.g_channels ∧
    (redis_publish s (some ch) (some msg) reply).state.g_callbacks = s.g_callbacks ∧
    (redis_publish s (some ch) (some msg) reply).state.g_running = s.g_running := by
  have hst := redis_publish_state s (some ch) (some msg) reply
  refine ⟨?_, ?_, hst, by rw [hst], by rw [hst], by rw [hst], by rw [hst]⟩
  · intro h
    subst h
    simp [redis_publish, hp]
  · intro r h
    subst h
    refine ⟨by simp [redis_publish, hp], ?_⟩
    intro hlo hhi
    simp only [redis_publish, hp, if_false]
    unfold int_of_longlong
    omega

/-- C8, the claim as stated fails: a reply whose `integer` field is 2^31 makes
`redis_publish` return -2^31, not the field. -/
theorem redis_publish_truncates :
    (redis_publish sessionState (some "news") (some "hello")
        (some (integerReply 2147483648))).ret = -2147483648 ∧
    (redis_publish sessionState (some "news") (some "hello")
        (some (integerReply 2147483648))).ret
      ≠ (integerReply 2147483648).integer := by
  decide


/-- C4, what the code does when the first connection fails with an error
context, or the second one does: `redis_init` returns -1 but leaves the freed
context's address in `g_context` (and in `g_sub_context`) and leaves the
critical section initialised; a following `redis_publish` or `redis_subscribe`
passes the "not initialised" test and sends its command on the freed
connection. -/
theorem failed_init_keeps_freed_handles :
    (redis_init initial ConnectResult.err ConnectResult.ok).ret = -1 ∧
    (redis_init initial ConnectResult.err ConnectResult.ok).state.g_context = Handle.freed ∧
    (redis_init initial ConnectResult.err ConnectResult.ok).state.g_lock
      = LockState.initialized ∧
    (redis_publish (redis_init initial ConnectResult.err ConnectResult.ok).state
        (some "news") (some "hello") (some (integerReply 1))).ret = 1 ∧
    commands (redis_publish (redis_init initial ConnectResult.err ConnectResult.ok).state
        (some "news") (some "hello") (some (integerReply 1))).effects
      = [(Handle.freed, "PUBLISH news hello")] ∧
    (redis_init initial ConnectResult.ok ConnectResult.err).ret = -1 ∧
    (redis_init initial ConnectResult.ok ConnectResult.err).state.g_context = Handle.freed ∧
    (redis_init initial ConnectResult.ok ConnectResult.err).state.g_sub_context
      = Handle.freed ∧
    (redis_subscribe (redis_init initial ConnectResult.ok ConnectResult.err).state
        (some "news") (some 11) (some (arrayReply [])) true).ret = 0 ∧
    commands (redis_subscribe (redis_init initial ConnectResult.ok ConnectResult.err).state
        (some "news") (some 11) (some (arrayReply [])) true).effects
      = [(Handle.freed, "SUBSCRIBE news")] := by
  decide

/-- What does hold when `redis_init` fails: it returns -1, and a later
`redis_init` whose two connections open returns 0 from whatever state the
failure left. -/
theorem redis_init_failure (s : State) (pub sub : ConnectResult)
    (h : pub ≠ ConnectResult.ok ∨ sub ≠ ConnectResult.ok) :
    (redis_init s pub sub).ret = -1 ∧
    (redis_init (redis_init s pub sub).state ConnectResult.ok ConnectResult.ok).ret = 0 := by
  cases pub <;> cases sub <;> simp [redis_init] at h ⊢

/-- C9, what the code does when `redis_close` is called again: from every
state the first call deletes the critical section, and the second call enters,
leaves and deletes that deleted section (so after `redis_init`, `redis_close`,
`redis_close`); and on the state a failed `redis_init` leaves, `redis_close`
passes the already freed context to `redisFree` once more. -/
theorem second_close_uses_deleted_lock (s : State) :
    (redis_close s).state.g_lock = LockState.deleted ∧
    (redis_close (redis_close s).state).effects
      = [Effect.EnterCriticalSection LockState.deleted,
         Effect.LeaveCriticalSection LockState.deleted,
         Effect.DeleteCriticalSection LockState.deleted] ∧
    (redis_close (redis_close sessionState).state).effects
      = [Effect.EnterCriticalSection LockState.deleted,
         Effect.LeaveCriticalSection LockState.deleted,
         Effect.DeleteCriticalSection LockState.deleted] ∧
    (redis_close (redis_init initial ConnectResult.err ConnectResult.ok).state).effects
      = [Effect.EnterCriticalSection LockState.initialized,
         Effect.redisFree Handle.freed,
         Effect.LeaveCriticalSection LockState.initialized,
         Effect.DeleteCriticalSection LockState.initialized] := by
  have hgen : ∀ t : State, (redis_close t).state.g_lock = LockState.deleted ∧
      (redis_close (redis_close t).state).effects
        = [Effect.EnterCriticalSection LockState.deleted,
           Effect.LeaveCriticalSection LockState.deleted,
           Effect.DeleteCriticalSection LockState.deleted] := by
    intro t
    unfold redis_close
    by_cases h1 : t.g_sub_context = Handle.null <;>
      by_cases h2 : t.g_context = Handle.null <;> simp [h1, h2]
  exact ⟨(hgen s).1, (hgen s).2, (hgen sessionState).2, by decide⟩

/-- After any sequence of events from program start, every entry below the
count carries a callback. -/
theorem registrations_have_callbacks (cs : List Call) (i : Nat)
    (h : (i : Int) < (execute initial cs).g_callback_count) :
    ((execute initial cs).g_callbacks.getD i none).isSome :=
  (execute_tableInv cs initial initial_tableInv).2.2.2.2 i h

/-- Instance of C1: a full table with both connections open. -/
theorem redis_subscribe_full_table_witness :
    (fullState.g_context ≠ Handle.null ∧ fullState.g_sub_context ≠ Handle.null ∧
      fullState.g_callback_count = 100) ∧
    (redis_subscribe fullState (some "sport") (some 9) (some (arrayReply [])) true).ret = -1 ∧
    (redis_subscribe fullState (some "sport") (some 9) (some (arrayReply [])) true).state
      = fullState :=
  ⟨⟨by decide, by decide, by decide⟩,
    (redis_subscribe_full_table fullState "sport" 9 (some (arrayReply [])) true
      (by decide) (by decide) (by decide)).1,
    (redis_subscribe_full_table fullState "sport" 9 (some (arrayReply [])) true
      (by decide) (by decide) (by decide)).2.1⟩

/-- Instance of C2: with registrations 11 and 13 on "news", a message on
"news" invokes 11 only. -/
theorem dispatch_first_match_wins_witness :
    ∃ es, process_reply duplicateState
        (arrayReply [stringReply "message", stringReply "news", stringReply "hello"])
          = some es ∧
      invocations es = [(11, "news", some "hello")] := by
  obtain ⟨es, h1, _, h3, _⟩ := dispatch_first_match_wins duplicateState 0 none
    (stringReply "message") (stringReply "news") (stringReply "hello") "news" "hello"
    rfl rfl rfl
  exact ⟨es, h1, h3 0 11 (by decide) (by decide) (by decide) (by intro j hj; omega)⟩

/-- Instance of C5: the first registration of a session, with a thread spawn
that fails. -/
theorem redis_subscribe_rolls_back_witness :
    (Effect.beginthreadex false ∈
      (redis_subscribe sessionState (some "news") (some 11) (some (arrayReply []))
        false).effects) ∧
    (redis_subscribe sessionState (some "news") (some 11) (some (arrayReply [])) false).ret
      = -1 ∧
    (redis_subscribe sessionState (some "news") (some 11) (some (arrayReply []))
        false).state.g_callback_count = sessionState.g_callback_count :=
  ⟨by decide,
    (redis_subscribe_rolls_back sessionState "news" 11 (some (arrayReply [])) false
      (by decide) (by decide) (by decide) (by decide)
      (Or.inr ⟨by simp, by decide⟩)).1,
    (redis_subscribe_rolls_back sessionState "news" 11 (some (arrayReply [])) false
      (by decide) (by decide) (by decide) (by decide)
      (Or.inr ⟨by simp, by decide⟩)).2.1⟩

/-- Instance of C8 as amended: a reply carrying the count 3. -/
theorem redis_publish_result_witness :
    sessionState.g_context ≠ Handle.null ∧
    (redis_publish sessionState (some "news") (some "hello") (some (integerReply 3))).ret
      = 3 :=
  ⟨by decide,
    ((redis_publish_result sessionState "news" "hello" (some (integerReply 3))
      (by decide)).2.1 (integerReply 3) rfl).2 (by decide) (by decide)⟩

end RedisPubSub

/-! ## Properties of the subscriber loop -/


namespace Subscriber

open RedisPubSub

/-- C6, what the code does with a subscription acknowledgment: every
three-element array whose first element is the string "subscribe" takes the
first branch of the loop body, whose test is the same as the second one's, and
is dropped without any output. -/
theorem acknowledgment_not_printed (msg_count n : Int) (st : Option String)
    (t0 : ReplyType) (n0 : Int) (es0 : List redisReply) (e1 e2 : redisReply) :
    main_handle_reply msg_count
        (redisReply.mk ReplyType.REDIS_REPLY_ARRAY n st
          [redisReply.mk t0 n0 (some "subscribe") es0, e1, e2])
      = some (msg_count, []) := by
  simp [main_handle_reply, redisReply.type, redisReply.elements, redisReply.element,
    redisReply.str]

/-- The part of the loop body that works: a three-element array tagged
"message" with string channel and payload bumps the counter and prints the
two lines. -/
theorem message_printed (msg_count n : Int) (st : Option String)
    (t0 : ReplyType) (n0 : Int) (es0 : List redisReply) (e1 e2 : redisReply)
    (channel payload : String) (h1 : e1.str = some channel) (h2 : e2.str = some payload) :
    main_handle_reply msg_count
        (redisReply.mk ReplyType.REDIS_REPLY_ARRAY n st
          [redisReply.mk t0 n0 (some "message") es0, e1, e2])
      = some (msg_count + 1,
          ["[Message #" ++ toString (msg_count + 1) ++ "] From channel '"
             ++ channel ++ "':\n",
           "             " ++ payload ++ "\n\n"]) := by
  have h0 : (redisReply.mk t0 n0 (some "message") es0).str = some "message" := rfl
  simp [main_handle_reply, redisReply.type, redisReply.elements, redisReply.element,
    h0, h1, h2]

/-- A reply that is not a three-element array produces no output. -/
theorem other_shapes_silent (msg_count : Int) (reply : redisReply)
    (h : ¬ (reply.type = ReplyType.REDIS_REPLY_ARRAY ∧ reply.elements = 3)) :
    main_handle_reply msg_count reply = some (msg_count, []) := by
  simp [main_handle_reply, h]

end Subscriber
